import Mathlib

/-!
Verification of the extraction core of the sandbox CI scripts:
.github/scripts/extract_test_failures.py (JUnit XML failure extraction) and
.github/scripts/generate_test_report.py (Java test-source scanning and
aggregation).  Python functions are shallowly embedded as executable Lean
definitions; strings are lists of characters (Python indexes by code point),
and the regular expressions of the source are embedded as regex ASTs run by a
backtracking matcher with Python re semantics (leftmost search, ordered
alternation, greedy and lazy repetition, DOTALL dot, ASCII IGNORECASE).
-/

/-- Python str whitespace characters as used by `\s` and str.strip (ASCII range). -/
def isPySpace (c : Char) : Bool :=
  c = ' ' || c = '\t' || c = '\n' || c = '\r' || c = '\x0b' || c = '\x0c'

/-- Python `\w` word characters (ASCII range: letters, digits, underscore). -/
def isPyWord (c : Char) : Bool :=
  c.isAlphanum || c = '_'

/-- Python substring containment, the `needle in haystack` operator. -/
def containsSub (needle : List Char) : List Char → Bool
  | [] => needle.isEmpty
  | a :: rest => needle.isPrefixOf (a :: rest) || containsSub needle rest

/-- Substring containment on String, mirroring Python `n in s`. -/
def containsSubS (needle s : String) : Bool :=
  containsSub needle.data s.data

/-- Python str.strip(): drop leading and trailing whitespace. -/
def pyStrip (l : List Char) : List Char :=
  ((l.dropWhile isPySpace).reverse.dropWhile isPySpace).reverse

/-- Python str.strip() on String. -/
def pyStripS (s : String) : String :=
  ⟨pyStrip s.data⟩

/-- Character classes appearing in the source's regexes. -/
inductive CharCls where
  | space      -- \s
  | word       -- \w
  | wordDot    -- [\w.]
  | quote      -- ["\']
  | notQuote   -- [^"\']
deriving DecidableEq

def clsMatch : CharCls → Char → Bool
  | .space, c => isPySpace c
  | .word, c => isPyWord c
  | .wordDot, c => isPyWord c || c = '.'
  | .quote, c => c = '"' || c = '\''
  | .notQuote, c => !(c = '"' || c = '\'')

/-- Regex AST covering the constructs used by the source's patterns. -/
inductive RE where
  | ch (c : Char)       -- literal character, case-sensitive
  | chI (c : Char)      -- literal character under IGNORECASE
  | cls (cc : CharCls)  -- single character from a class
  | anyc                -- `.` under DOTALL: any character
  | seq (es : List RE)
  | alt (es : List RE)  -- ordered alternation, first match wins
  | opt (e : RE)        -- greedy `?`
  | starG (e : RE)      -- greedy `*`
  | starL (e : RE)      -- lazy `*?`
  | plusG (e : RE)      -- greedy `+`
  | grp (e : RE)        -- capturing group

/-- Backtracking matcher in continuation-passing style with Python re
semantics: alternatives and repetition counts are tried in Python's
backtracking order, so the first result found is the one Python returns.
`caps` accumulates completed capture groups in order of completion.  The
fuel argument only bounds the depth of nested attempts; `reFuel` below is
far larger than any pattern of this file can need on a given input. -/
def reGo : Nat → RE → List Char → List String →
    (List Char → List String → Option (List String)) → Option (List String)
  | 0, _, _, _, _ => none
  | Nat.succ _, RE.ch c, s, caps, k =>
    match s with
    | [] => none
    | a :: rest => if a = c then k rest caps else none
  | Nat.succ _, RE.chI c, s, caps, k =>
    match s with
    | [] => none
    | a :: rest => if a.toLower = c.toLower then k rest caps else none
  | Nat.succ _, RE.cls cc, s, caps, k =>
    match s with
    | [] => none
    | a :: rest => if clsMatch cc a then k rest caps else none
  | Nat.succ _, RE.anyc, s, caps, k =>
    match s with
    | [] => none
    | _ :: rest => k rest caps
  | Nat.succ _, RE.seq [], s, caps, k => k s caps
  | Nat.succ n, RE.seq (e :: es), s, caps, k =>
    reGo n e s caps (fun s2 caps2 => reGo n (RE.seq es) s2 caps2 k)
  | Nat.succ _, RE.alt [], _, _, _ => none
  | Nat.succ n, RE.alt (e :: es), s, caps, k =>
    match reGo n e s caps k with
    | some r => some r
    | none => reGo n (RE.alt es) s caps k
  | Nat.succ n, RE.opt e, s, caps, k =>
    match reGo n e s caps k with
    | some r => some r
    | none => k s caps
  | Nat.succ n, RE.starG e, s, caps, k =>
    match reGo n e s caps (fun s2 caps2 =>
        if s2.length < s.length then reGo n (RE.starG e) s2 caps2 k else none) with
    | some r => some r
    | none => k s caps
  | Nat.succ n, RE.starL e, s, caps, k =>
    match k s caps with
    | some r => some r
    | none =>
      reGo n e s caps (fun s2 caps2 =>
        if s2.length < s.length then reGo n (RE.starL e) s2 caps2 k else none)
  | Nat.succ n, RE.plusG e, s, caps, k =>
    reGo n e s caps (fun s2 caps2 => reGo n (RE.starG e) s2 caps2 k)
  | Nat.succ n, RE.grp e, s, caps, k =>
    reGo n e s caps (fun s2 caps2 =>
      k s2 (caps2 ++ [⟨s.take (s.length - s2.length)⟩]))

/-- Fuel bound: generous for the small patterns of this file. -/
def reFuel (s : List Char) : Nat := 32 * s.length + 4000

/-- Python re.match: anchored attempt at the start of the string; on success
returns the list of capture groups. -/
def reMatch (re : RE) (s : List Char) : Option (List String) :=
  reGo (reFuel s) re s [] (fun _ caps => some caps)

/-- Python re.search: try each start position left to right. -/
def reSearch (re : RE) : List Char → Option (List String)
  | [] => reMatch re []
  | a :: rest =>
    match reMatch re (a :: rest) with
    | some caps => some caps
    | none => reSearch re rest

/-- A sequence of case-sensitive literal characters. -/
def lits (s : String) : RE := RE.seq (s.data.map RE.ch)

/-- A sequence of literal characters under IGNORECASE. -/
def litsI (s : String) : RE := RE.seq (s.data.map RE.chI)

/-! ### The four regexes of the source, as regex ASTs -/

/-- Pattern 1 of parse_assertion_error:
expected:\s*<(.*)>\s*but was:\s*<(.*)>  with re.DOTALL and re.IGNORECASE. -/
def pat1 : RE :=
  RE.seq [litsI "expected:", RE.starG (RE.cls .space), RE.ch '<',
    RE.grp (RE.starG RE.anyc), RE.ch '>', RE.starG (RE.cls .space),
    litsI "but was:", RE.starG (RE.cls .space), RE.ch '<',
    RE.grp (RE.starG RE.anyc), RE.ch '>']

/-- Pattern 2 of parse_assertion_error:
Expected:\s*(.*?)\s*Actual:\s*(.*)  with re.DOTALL and re.IGNORECASE. -/
def pat2 : RE :=
  RE.seq [litsI "Expected:", RE.starG (RE.cls .space),
    RE.grp (RE.starL RE.anyc), RE.starG (RE.cls .space),
    litsI "Actual:", RE.starG (RE.cls .space), RE.grp (RE.starG RE.anyc)]

/-- The scanner's method-declaration shape:
\s*(?:public|private|protected)?\s+(?:static\s+)?(?:void|\w+)\s+(\w+)\s*\( -/
def methodRe : RE :=
  RE.seq [RE.starG (RE.cls .space),
    RE.opt (RE.alt [lits "public", lits "private", lits "protected"]),
    RE.plusG (RE.cls .space),
    RE.opt (RE.seq [lits "static", RE.plusG (RE.cls .space)]),
    RE.alt [lits "void", RE.plusG (RE.cls .word)],
    RE.plusG (RE.cls .space),
    RE.grp (RE.plusG (RE.cls .word)),
    RE.starG (RE.cls .space),
    RE.ch '(']

/-- The scanner's disablement-reason shape:
@Disabled\s*\(\s*["\']([^"\']+)["\']\s*\) -/
def disabledRe : RE :=
  RE.seq [lits "@Disabled", RE.starG (RE.cls .space), RE.ch '(',
    RE.starG (RE.cls .space), RE.cls .quote,
    RE.grp (RE.plusG (RE.cls .notQuote)),
    RE.cls .quote, RE.starG (RE.cls .space), RE.ch ')']

/-- The scanner's package declaration shape: package\s+([\w.]+); -/
def packageRe : RE :=
  RE.seq [lits "package", RE.plusG (RE.cls .space),
    RE.grp (RE.plusG (RE.cls .wordDot)), RE.ch ';']

/-- The scanner's class declaration shape: (?:public\s+)?class\s+(\w+) -/
def classRe : RE :=
  RE.seq [RE.opt (RE.seq [lits "public", RE.plusG (RE.cls .space)]),
    lits "class", RE.plusG (RE.cls .space), RE.grp (RE.plusG (RE.cls .word))]

/-! ### extract_test_failures.py: parse_assertion_error -/

/-- parse_assertion_error: try pattern 1, then pattern 2, first match wins;
each captured group is stripped; returns (expected, actual) or none. -/
def parse_assertion_error (message : String) : Option (String × String) :=
  match reSearch pat1 message.data with
  | some (a :: b :: _) => some (pyStripS a, pyStripS b)
  | some _ => none
  | none =>
    match reSearch pat2 message.data with
    | some (a :: b :: _) => some (pyStripS a, pyStripS b)
    | some _ => none
    | none => none

/-! ### extract_test_failures.py: extract_failures

The XML result tree is embedded per the shape the script consumes:
the root is either a single suite node or a container of suite nodes; a
suite holds test cases; a test case may hold a failure node and an error
node, each with an optional message attribute and optional body text. -/

/-- A failure or error element of a test case. -/
structure TCMarker where
  message : Option String  -- the message attribute, absent when not set
  text : Option String     -- the element body text, ElementTree .text
deriving DecidableEq

structure TestCase where
  name : Option String
  classname : Option String
  failure : Option TCMarker
  error : Option TCMarker
deriving DecidableEq

structure TestSuite where
  name : Option String
  testcases : List TestCase
deriving DecidableEq

/-- Root of a parsed document: either a lone suite element or a
testsuites container. -/
inductive XMLRoot where
  | single (s : TestSuite)
  | container (ss : List TestSuite)
deriving DecidableEq

/-- Root normalization of extract_failures: a container contributes its
suite elements, a lone suite is a one-element collection. -/
def rootSuites : XMLRoot → List TestSuite
  | .single s => [s]
  | .container ss => ss

/-- Which branch of extract_failures appended a record: the failure-marker
branch or the error-marker branch. -/
inductive FKind where
  | failureK
  | errorK
deriving DecidableEq

def FKind.isFailure : FKind → Bool
  | .failureK => true
  | .errorK => false

/-- One extracted record: the dict appended by extract_failures, tagged
with the branch that appended it. -/
structure FailureRecord where
  className : String   -- dict key "class"
  test : String
  message : String
  stacktrace : String
  parse_source : String
  kind : FKind
deriving DecidableEq

/-- Python slice s[:n] by code points. -/
def pySlice (n : Nat) (s : String) : String := ⟨s.data.take n⟩

/-- truncated_message = message[:1000], marker appended when len > 1000. -/
def truncMessage (m : String) : String :=
  if 1000 < m.data.length then pySlice 1000 m ++ "... (truncated)" else pySlice 1000 m

/-- truncated_stacktrace = stacktrace[:5000], marker appended when len > 5000. -/
def truncStack (s : String) : String :=
  if 5000 < s.data.length then pySlice 5000 s ++ "\n... (truncated)" else pySlice 5000 s

/-- message = marker.get("message", "No message"): attribute default only
when the attribute is absent. -/
def markerMessage (m : TCMarker) : String :=
  m.message.getD "No message"

/-- stacktrace = marker.text or "No stacktrace": Python `or` replaces both
a missing and an empty body text. -/
def markerStacktrace (m : TCMarker) : String :=
  match m.text with
  | some t => if t = "" then "No stacktrace" else t
  | none => "No stacktrace"

/-- Python `'\n' in stacktrace`. -/
def hasNL (s : String) : Bool := s.data.contains '\n'

/-- The record built for one failure/error marker of one test case,
mirroring the identical bodies of the two branches of extract_failures. -/
def mkRec (cls tname : String) (k : FKind) (m : TCMarker) : FailureRecord :=
  ⟨cls, tname, truncMessage (markerMessage m), truncStack (markerStacktrace m),
    if hasNL (markerStacktrace m) then truncStack (markerStacktrace m)
    else truncMessage (markerMessage m),
    k⟩

/-- Records appended for one test case: the failure marker is checked
first, then, independently, the error marker. -/
def recordsOfTestCase (suiteName : String) (tc : TestCase) : List FailureRecord :=
  (match tc.failure with
   | some f => [mkRec (tc.classname.getD suiteName) (tc.name.getD "Unknown") FKind.failureK f]
   | none => []) ++
  (match tc.error with
   | some e => [mkRec (tc.classname.getD suiteName) (tc.name.getD "Unknown") FKind.errorK e]
   | none => [])

def recordsOfSuite (s : TestSuite) : List FailureRecord :=
  s.testcases.flatMap (recordsOfTestCase (s.name.getD "Unknown"))

/-- All records extracted from one successfully parsed document. -/
def extractDoc (r : XMLRoot) : List FailureRecord :=
  (rootSuites r).flatMap recordsOfSuite

/-- Outcome of opening and parsing one TEST-*.xml file.  Parsing happens
outside the pure core; a document that raises ET.ParseError is `malformed`,
and a document whose processing raises any other exception is `failed`. -/
inductive DocInput where
  | parsed (r : XMLRoot)
  | malformed (err : String)
  | failed (err : String)
deriving DecidableEq

structure DocFile where
  path : String
  input : DocInput
deriving DecidableEq

/-- Per-document step of extract_failures: records from a parsed document,
or no records plus the stderr diagnostic of the matching except arm. -/
def processDoc (d : DocFile) : List FailureRecord × List String :=
  match d.input with
  | .parsed r => (extractDoc r, [])
  | .malformed e => ([], ["Warning: Could not parse " ++ d.path ++ ": " ++ e])
  | .failed e => ([], ["Warning: Error processing " ++ d.path ++ ": " ++ e])

/-- extract_failures over the discovered documents, in discovery order:
accumulated records and accumulated diagnostics. -/
def extract_failures (docs : List DocFile) : List FailureRecord × List String :=
  docs.foldl (fun acc d => (acc.1 ++ (processDoc d).1, acc.2 ++ (processDoc d).2)) ([], [])

/-! ### generate_test_report.py: TestScanner.scan_java_file

One TestMethod per emitted record, fields in dataclass order. -/

structure TestMethod where
  plugin : String
  file_path : String
  class_name : String
  method_name : String
  is_disabled : Bool
  disabled_reason : String
  test_type : String
  line_number : Nat
deriving DecidableEq

/-- The per-declaration lookback state: pending test annotation, pending
disabled flag, pending disabled reason. -/
structure LookState where
  testAnnot : Option String
  isDisabled : Bool
  reason : String
deriving DecidableEq

/-- State at the start of each lookback: None, False, "". -/
def look0 : LookState := ⟨none, false, ""⟩

/-- disabled_reason computed from one stripped line that contains the
disablement marker: the captured group of the reason regex, or the
sentinel when the regex does not match. -/
def reasonOf (pl : String) : String :=
  match reSearch disabledRe pl.data with
  | some (r :: _) => r
  | _ => "No reason specified"

/-- One iteration of the lookback loop over a stripped preceding line.
The annotation checks are an elif chain; the disablement check is an
independent if.  The source's final check for a marker inside a same-line
comment is a pass statement, so it contributes nothing here. -/
def lookStep (st : LookState) (pl : String) : LookState :=
  let ta := if containsSubS "@Test" pl then some "Test"
    else if containsSubS "@ParameterizedTest" pl then some "ParameterizedTest"
    else if containsSubS "@RepeatedTest" pl then some "RepeatedTest"
    else st.testAnnot
  if containsSubS "@Disabled" pl then ⟨ta, true, reasonOf pl⟩
  else ⟨ta, st.isDisabled, st.reason⟩

/-- Python str.split('\n') on the character list: separator occurrences
delimit fields, empty fields kept. -/
def splitNL : List Char → List (List Char)
  | [] => [[]]
  | c :: rest =>
    match splitNL rest with
    | [] => [[]]
    | h :: t => if c = '\n' then [] :: h :: t else (c :: h) :: t

/-- content.split('\n') as a list of lines. -/
def pySplitLines (s : String) : List String :=
  (splitNL s.data).map (fun l => ⟨l⟩)

/-- The stripped lines of the lookback window of line i:
lines[j].strip() for j in range(max(0, i-10), i). -/
def windowLines (lines : List String) (i : Nat) : List String :=
  (List.range' (i - 10) (i - (i - 10))).map (fun j => pyStripS (lines.getD j ""))

/-- The records (none or one) emitted while visiting line i. -/
def emitAt (lines : List String) (plugin fpath cls : String) (i : Nat) : List TestMethod :=
  match reMatch methodRe (lines.getD i "").data,
        ((windowLines lines i).foldl lookStep look0).testAnnot with
  | some (m :: _), some t =>
    [⟨plugin, fpath, cls, m,
      ((windowLines lines i).foldl lookStep look0).isDisabled,
      ((windowLines lines i).foldl lookStep look0).reason,
      t, i + 1⟩]
  | _, _ => []

/-- scan_java_file on the text of one file: single-shot package and class
searches over the whole content, then the line scan.  A file with no class
match contributes no records. -/
def scan_java_file (content plugin fpath : String) : List TestMethod :=
  match reSearch classRe content.data with
  | some (cls :: _) =>
    let lines := pySplitLines content
    let full := match reSearch packageRe content.data with
      | some (pkg :: _) => pkg ++ "." ++ cls
      | _ => cls
    (List.range lines.length).foldl (fun acc i => acc ++ emitAt lines plugin fpath full i) []
  | _ => []

/-! ### generate_test_report.py: TestScanner.generate_summary -/

structure PluginSummary where
  plugin_name : String
  total_tests : Nat
  disabled_tests : Nat
  enabled_tests : Nat
  test_files : Nat
deriving DecidableEq

/-- Distinct values in first-occurrence order (defaultdict grouping order,
and len(set(..)) cardinality). -/
def firstOccs (l : List String) : List String :=
  l.foldl (fun acc p => if p ∈ acc then acc else acc ++ [p]) []

/-- generate_summary: group records by plugin, then per plugin
total = len, disabled = count of is_disabled, enabled = total - disabled,
test_files = number of distinct file paths. -/
def generate_summary (tests : List TestMethod) : List PluginSummary :=
  (firstOccs (tests.map (fun t => t.plugin))).map (fun p =>
    let ts := tests.filter (fun t => t.plugin = p)
    ⟨p, ts.length, (ts.filter (fun t => t.is_disabled)).length,
      ts.length - (ts.filter (fun t => t.is_disabled)).length,
      (firstOccs (ts.map (fun t => t.file_path))).length⟩)

/-! ### Helper lemmas -/

/-- Python s.endswith(t). -/
def strEndsWith (s t : String) : Bool := t.data.isSuffixOf s.data

theorem strEndsWith_append (a b : String) : strEndsWith (a ++ b) b = true := by
  have h : (a ++ b).data = a.data ++ b.data := by
    cases a; cases b; rfl
  rw [strEndsWith, h]
  simp [List.isSuffixOf_iff_suffix]

/-! ### Claim theorems -/

/-- C4: parse_assertion_error applies its two patterns in order, first
match wins, and yields the three documented results: the JUnit5 style
message gives (5, 3), the Hamcrest style message gives (foo, bar), and a
bare exception name gives no diff. -/
theorem c4_assertion_patterns :
    parse_assertion_error "expected: <5> but was: <3>" = some ("5", "3") ∧
    parse_assertion_error "Expected: foo Actual: bar" = some ("foo", "bar") ∧
    parse_assertion_error "NullPointerException" = none ∧
    ∀ s a b rest, reSearch pat1 s.data = some (a :: b :: rest) →
      parse_assertion_error s = some (pyStripS a, pyStripS b) := by
  refine ⟨by decide, by decide, by decide, ?_⟩
  intro s a b rest h
  unfold parse_assertion_error
  rw [h]

/-- Witness for C4: pattern 1 matches the first documented input with
groups 5 and 3, and parse_assertion_error returns their stripped pair. -/
theorem c4_assertion_patterns_witness :
    reSearch pat1 ("expected: <5> but was: <3>").data = some ("5" :: "3" :: []) ∧
    parse_assertion_error "expected: <5> but was: <3>" = some (pyStripS "5", pyStripS "3") :=
  ⟨by decide,
   c4_assertion_patterns.2.2.2 "expected: <5> but was: <3>" "5" "3" [] (by decide)⟩

/-- C5: the diff parse source of a record is the truncated stack trace
when the raw stack-trace text contains a newline, else the truncated
message. -/
theorem c5_parse_source_selection (cls tname : String) (k : FKind) (m : TCMarker) :
    (hasNL (markerStacktrace m) = true →
      (mkRec cls tname k m).parse_source = truncStack (markerStacktrace m)) ∧
    (hasNL (markerStacktrace m) = false →
      (mkRec cls tname k m).parse_source = truncMessage (markerMessage m)) := by
  constructor <;> intro h <;> simp [mkRec, h]

/-- Witness for C5 at a marker whose stack trace spans two lines. -/
theorem c5_parse_source_selection_witness :
    hasNL (markerStacktrace ⟨some "boom", some "a\nb"⟩) = true ∧
    (mkRec "C" "t" FKind.failureK ⟨some "boom", some "a\nb"⟩).parse_source =
      truncStack (markerStacktrace ⟨some "boom", some "a\nb"⟩) :=
  ⟨by decide,
   (c5_parse_source_selection "C" "t" FKind.failureK ⟨some "boom", some "a\nb"⟩).1 (by decide)⟩

/-- C6: a message or stack trace longer than its cap is stored as the
first cap characters with the truncation marker appended (so it ends with
the marker); one shorter than the cap is stored verbatim. -/
theorem c6_truncation (s : String) :
    (1000 < s.data.length →
      truncMessage s = pySlice 1000 s ++ "... (truncated)" ∧
      strEndsWith (truncMessage s) "... (truncated)" = true) ∧
    (s.data.length < 1000 → truncMessage s = s) ∧
    (5000 < s.data.length →
      truncStack s = pySlice 5000 s ++ "\n... (truncated)" ∧
      strEndsWith (truncStack s) "\n... (truncated)" = true) ∧
    (s.data.length < 5000 → truncStack s = s) := by
  refine ⟨fun h => ?_, fun h => ?_, fun h => ?_, fun h => ?_⟩
  · rw [truncMessage, if_pos h]
    exact ⟨rfl, strEndsWith_append _ _⟩
  · rw [truncMessage, if_neg (by omega), pySlice, List.take_of_length_le (by omega)]
  · rw [truncStack, if_pos h]
    exact ⟨rfl, strEndsWith_append _ _⟩
  · rw [truncStack, if_neg (by omega), pySlice, List.take_of_length_le (by omega)]

/-- Witness for C6 at a 1001-character message and a 4-character stack
trace. -/
theorem c6_truncation_witness :
    (1000 < (String.mk (List.replicate 1001 'a')).data.length ∧
      truncMessage ⟨List.replicate 1001 'a'⟩ =
        pySlice 1000 ⟨List.replicate 1001 'a'⟩ ++ "... (truncated)") ∧
    (("boom" : String).data.length < 5000 ∧ truncStack "boom" = "boom") :=
  ⟨⟨by rw [show (String.mk (List.replicate 1001 'a')).data = List.replicate 1001 'a' from rfl,
        List.length_replicate]; omega,
     ((c6_truncation ⟨List.replicate 1001 'a'⟩).1
        (by rw [show (String.mk (List.replicate 1001 'a')).data = List.replicate 1001 'a' from rfl,
             List.length_replicate]; omega)).1⟩,
   ⟨by decide, (c6_truncation "boom").2.2.2 (by decide)⟩⟩

/-- C1 (code evaluation at the failing input): in a file whose lookback
window contains the disablement marker only inside a same-line comment
(after a // token), scan_java_file still emits the record with
is_disabled = true and the reason taken from the commented marker.  The
source's own comment at the commented-marker check says the test is
actually enabled, but the check's body is a pass statement, so the flag
set by the preceding substring check survives. -/
theorem c1_commented_marker_still_disables :
    scan_java_file
      "public class FooTest \x7b\n    // @Disabled(\"broken\")\n    @Test\n    public void testFoo() \x7b\n    \x7d\n\x7d"
      "m" "f" =
      [⟨"m", "f", "FooTest", "testFoo", true, "broken", "Test", 4⟩] := by
  decide

/-- C10: the method-declaration shape is over-permissive: the statement
line "        return compute(x);" matches it with return as the
return-type token, so with a test-kind marker within 10 preceding lines
the scan emits a spurious record with method_name compute (line 7),
alongside the real test method. -/
theorem c10_method_shape_over_permissive :
    reMatch methodRe "        return compute(x);".data = some ["compute"] ∧
    scan_java_file
      "package com.example;\n\npublic class FooTest \x7b\n    @Test\n    public void testReal() \x7b\n    \x7d\n        return compute(x);\n\x7d"
      "m" "f" =
      [⟨"m", "f", "com.example.FooTest", "testReal", false, "", "Test", 5⟩,
       ⟨"m", "f", "com.example.FooTest", "compute", false, "", "Test", 7⟩] := by
  exact ⟨by decide, by decide⟩

/-- C9: every summary produced by generate_summary satisfies
enabled = total - disabled, where total counts the module's records and
disabled counts those with is_disabled; there is no independent enabled
count. -/
theorem c9_enabled_equation (tests : List TestMethod) (s : PluginSummary)
    (h : s ∈ generate_summary tests) :
    s.enabled_tests = s.total_tests - s.disabled_tests ∧
    s.disabled_tests ≤ s.total_tests ∧
    s.enabled_tests + s.disabled_tests = s.total_tests ∧
    s.total_tests = (tests.filter (fun t => t.plugin = s.plugin_name)).length ∧
    s.disabled_tests =
      ((tests.filter (fun t => t.plugin = s.plugin_name)).filter (fun t => t.is_disabled)).length := by
  obtain ⟨p, _, rfl⟩ := List.mem_map.1 h
  refine ⟨rfl, List.length_filter_le _ _, ?_, rfl, rfl⟩
  exact Nat.sub_add_cancel (List.length_filter_le _ _)

/-- Witness for C9 on a two-module record set. -/
theorem c9_enabled_equation_witness :
    (⟨"moduleA", 3, 1, 2, 1⟩ : PluginSummary) ∈ generate_summary
      [⟨"moduleA", "fa", "A", "t1", false, "", "Test", 1⟩,
       ⟨"moduleA", "fa", "A", "t2", true, "No reason specified", "Test", 5⟩,
       ⟨"moduleA", "fa", "A", "t3", false, "", "Test", 9⟩,
       ⟨"moduleB", "fb", "B", "u1", false, "", "Test", 2⟩,
       ⟨"moduleB", "fb", "B", "u2", false, "", "Test", 6⟩] ∧
    (3 : Nat) - 1 = 2 :=
  ⟨by decide,
   by
    have h := c9_enabled_equation
      [⟨"moduleA", "fa", "A", "t1", false, "", "Test", 1⟩,
       ⟨"moduleA", "fa", "A", "t2", true, "No reason specified", "Test", 5⟩,
       ⟨"moduleA", "fa", "A", "t3", false, "", "Test", 9⟩,
       ⟨"moduleB", "fb", "B", "u1", false, "", "Test", 2⟩,
       ⟨"moduleB", "fb", "B", "u2", false, "", "Test", 6⟩]
      ⟨"moduleA", 3, 1, 2, 1⟩ (by decide)
    exact (h.1).symm⟩

/-- N of the claim: failure markers present across the document's test
cases. -/
def countFailureMarkers (root : XMLRoot) : Nat :=
  ((rootSuites root).map (fun su => su.testcases.countP (fun tc => tc.failure.isSome))).sum

/-- M of the claim: error markers present across the document's test
cases. -/
def countErrorMarkers (root : XMLRoot) : Nat :=
  ((rootSuites root).map (fun su => su.testcases.countP (fun tc => tc.error.isSome))).sum

theorem recordsOfTestCase_length (sn : String) (tc : TestCase) :
    (recordsOfTestCase sn tc).length =
      (if tc.failure.isSome then 1 else 0) + (if tc.error.isSome then 1 else 0) := by
  rcases tc with ⟨n, c, f, e⟩
  cases f <;> cases e <;> rfl

theorem recordsOfTestCase_filter_fail (sn : String) (tc : TestCase) :
    ((recordsOfTestCase sn tc).filter (fun r => r.kind.isFailure)).length =
      (if tc.failure.isSome then 1 else 0) := by
  rcases tc with ⟨n, c, f, e⟩
  cases f <;> cases e <;> rfl

theorem recordsOfTestCase_filter_err (sn : String) (tc : TestCase) :
    ((recordsOfTestCase sn tc).filter (fun r => !r.kind.isFailure)).length =
      (if tc.error.isSome then 1 else 0) := by
  rcases tc with ⟨n, c, f, e⟩
  cases f <;> cases e <;> rfl

theorem flatMap_records_length (sn : String) (tcs : List TestCase) :
    (tcs.flatMap (recordsOfTestCase sn)).length =
      tcs.countP (fun tc => tc.failure.isSome) + tcs.countP (fun tc => tc.error.isSome) := by
  induction tcs with
  | nil => rfl
  | cons tc tcs ih =>
    rw [List.flatMap_cons, List.length_append, ih, List.countP_cons, List.countP_cons,
      recordsOfTestCase_length]
    rcases tc with ⟨n, c, f, e⟩
    cases f <;> cases e <;> simp <;> omega

theorem flatMap_records_filter_fail (sn : String) (tcs : List TestCase) :
    ((tcs.flatMap (recordsOfTestCase sn)).filter (fun r => r.kind.isFailure)).length =
      tcs.countP (fun tc => tc.failure.isSome) := by
  induction tcs with
  | nil => rfl
  | cons tc tcs ih =>
    rw [List.flatMap_cons, List.filter_append, List.length_append, ih, List.countP_cons,
      recordsOfTestCase_filter_fail]
    rcases tc with ⟨n, c, f, e⟩
    cases f <;> cases e <;> simp <;> omega

theorem flatMap_records_filter_err (sn : String) (tcs : List TestCase) :
    ((tcs.flatMap (recordsOfTestCase sn)).filter (fun r => !r.kind.isFailure)).length =
      tcs.countP (fun tc => tc.error.isSome) := by
  induction tcs with
  | nil => rfl
  | cons tc tcs ih =>
    rw [List.flatMap_cons, List.filter_append, List.length_append, ih, List.countP_cons,
      recordsOfTestCase_filter_err]
    rcases tc with ⟨n, c, f, e⟩
    cases f <;> cases e <;> simp <;> omega

theorem suites_records_length (ss : List TestSuite) :
    (ss.flatMap recordsOfSuite).length =
      (ss.map (fun su => su.testcases.countP (fun tc => tc.failure.isSome))).sum +
      (ss.map (fun su => su.testcases.countP (fun tc => tc.error.isSome))).sum := by
  induction ss with
  | nil => rfl
  | cons su ss ih =>
    rw [List.flatMap_cons, List.length_append, ih, List.map_cons, List.map_cons,
      List.sum_cons, List.sum_cons, recordsOfSuite, flatMap_records_length]
    omega

theorem suites_records_filter_fail (ss : List TestSuite) :
    ((ss.flatMap recordsOfSuite).filter (fun r => r.kind.isFailure)).length =
      (ss.map (fun su => su.testcases.countP (fun tc => tc.failure.isSome))).sum := by
  induction ss with
  | nil => rfl
  | cons su ss ih =>
    rw [List.flatMap_cons, List.filter_append, List.length_append, ih, List.map_cons,
      List.sum_cons, recordsOfSuite, flatMap_records_filter_fail]

theorem suites_records_filter_err (ss : List TestSuite) :
    ((ss.flatMap recordsOfSuite).filter (fun r => !r.kind.isFailure)).length =
      (ss.map (fun su => su.testcases.countP (fun tc => tc.error.isSome))).sum := by
  induction ss with
  | nil => rfl
  | cons su ss ih =>
    rw [List.flatMap_cons, List.filter_append, List.length_append, ih, List.map_cons,
      List.sum_cons, recordsOfSuite, flatMap_records_filter_err]

/-- C2: a document with N failure markers and M error markers yields
exactly N + M records, N of them from the failure branch and M from the
error branch; a test case carrying both markers yields one record per
marker, the failure-branch record first. -/
theorem c2_record_count_and_kinds :
    (∀ root : XMLRoot,
      (extractDoc root).length = countFailureMarkers root + countErrorMarkers root ∧
      ((extractDoc root).filter (fun r => r.kind.isFailure)).length = countFailureMarkers root ∧
      ((extractDoc root).filter (fun r => !r.kind.isFailure)).length = countErrorMarkers root) ∧
    ∀ sn tc, (recordsOfTestCase sn tc).map (fun r => r.kind) =
      (if tc.failure.isSome then [FKind.failureK] else []) ++
      (if tc.error.isSome then [FKind.errorK] else []) := by
  constructor
  · intro root
    exact ⟨suites_records_length (rootSuites root),
      suites_records_filter_fail (rootSuites root),
      suites_records_filter_err (rootSuites root)⟩
  · intro sn tc
    rcases tc with ⟨n, c, f, e⟩
    cases f <;> cases e <;> rfl

theorem extract_failures_init (docs : List DocFile) (a : List FailureRecord) (b : List String) :
    docs.foldl (fun acc d => (acc.1 ++ (processDoc d).1, acc.2 ++ (processDoc d).2)) (a, b) =
      (a ++ (extract_failures docs).1, b ++ (extract_failures docs).2) := by
  induction docs generalizing a b with
  | nil => simp [extract_failures]
  | cons d docs ih =>
    have hd : extract_failures (d :: docs) =
        ((processDoc d).1 ++ (extract_failures docs).1,
         (processDoc d).2 ++ (extract_failures docs).2) := by
      rw [extract_failures, List.foldl_cons, ih]
      simp
    rw [List.foldl_cons, ih, hd]
    simp

/-- C3: a document whose processing raises (a parse failure or any other
exception) contributes zero records, contributes exactly its stderr
diagnostic, and the surrounding batch is extracted as if intact: the
records are those of the other documents, in order. -/
theorem c3_error_isolation (pre post : List DocFile) (path e : String) :
    extract_failures (pre ++ ⟨path, DocInput.malformed e⟩ :: post) =
      ((extract_failures pre).1 ++ (extract_failures post).1,
       (extract_failures pre).2 ++
         ("Warning: Could not parse " ++ path ++ ": " ++ e) :: (extract_failures post).2) ∧
    extract_failures (pre ++ ⟨path, DocInput.failed e⟩ :: post) =
      ((extract_failures pre).1 ++ (extract_failures post).1,
       (extract_failures pre).2 ++
         ("Warning: Error processing " ++ path ++ ": " ++ e) :: (extract_failures post).2) ∧
    (processDoc ⟨path, DocInput.malformed e⟩).1 = [] ∧
    (processDoc ⟨path, DocInput.failed e⟩).1 = [] := by
  have key : ∀ d : DocFile,
      extract_failures (pre ++ d :: post) =
        ((extract_failures pre).1 ++ (processDoc d).1 ++ (extract_failures post).1,
         (extract_failures pre).2 ++ (processDoc d).2 ++ (extract_failures post).2) := by
    intro d
    rw [extract_failures, List.foldl_append, List.foldl_cons]
    have hpre : pre.foldl
        (fun acc dd => (acc.1 ++ (processDoc dd).1, acc.2 ++ (processDoc dd).2))
        (([] : List FailureRecord), ([] : List String)) = extract_failures pre := rfl
    rw [hpre, extract_failures_init]
  refine ⟨?_, ?_, rfl, rfl⟩
  · rw [key ⟨path, DocInput.malformed e⟩]
    simp [processDoc]
  · rw [key ⟨path, DocInput.failed e⟩]
    simp [processDoc]

/-- A line contains one of the three recognized test-kind markers. -/
def hasKindMarker (pl : String) : Bool :=
  containsSubS "@Test" pl || containsSubS "@ParameterizedTest" pl ||
    containsSubS "@RepeatedTest" pl

theorem lookStep_annot_of_not (st : LookState) (pl : String)
    (h : hasKindMarker pl = false) : (lookStep st pl).testAnnot = st.testAnnot := by
  simp only [hasKindMarker, Bool.or_eq_false_iff] at h
  obtain ⟨⟨h1, h2⟩, h3⟩ := h
  simp only [lookStep, h1, h2, h3, Bool.false_eq_true, if_false]
  split <;> rfl

theorem lookfold_annot (L : List String) (st : LookState) (t : String)
    (h : (L.foldl lookStep st).testAnnot = some t) :
    (∃ pl ∈ L, hasKindMarker pl = true) ∨ st.testAnnot = some t := by
  induction L generalizing st with
  | nil => exact Or.inr h
  | cons a L ih =>
    rw [List.foldl_cons] at h
    rcases ih (lookStep st a) h with hl | hr
    · obtain ⟨pl, hm, hk⟩ := hl
      exact Or.inl ⟨pl, List.mem_cons_of_mem _ hm, hk⟩
    · by_cases hk : hasKindMarker a = true
      · exact Or.inl ⟨a, List.mem_cons_self _ _, hk⟩
      · have hk' : hasKindMarker a = false := by
          rwa [Bool.not_eq_true] at hk
        right
        rwa [lookStep_annot_of_not st a hk'] at hr

theorem lookStep_dis_true (st : LookState) (pl : String)
    (h : containsSubS "@Disabled" pl = true) :
    (lookStep st pl).isDisabled = true ∧ (lookStep st pl).reason = reasonOf pl := by
  simp [lookStep, h]

theorem lookStep_dis_false (st : LookState) (pl : String)
    (h : containsSubS "@Disabled" pl = false) :
    (lookStep st pl).isDisabled = st.isDisabled ∧ (lookStep st pl).reason = st.reason := by
  simp [lookStep, h]

theorem lookfold_keep (L : List String) (st : LookState)
    (h : ∀ q ∈ L, containsSubS "@Disabled" q = false) :
    (L.foldl lookStep st).isDisabled = st.isDisabled ∧
    (L.foldl lookStep st).reason = st.reason := by
  induction L generalizing st with
  | nil => exact ⟨rfl, rfl⟩
  | cons a L ih =>
    rw [List.foldl_cons]
    obtain ⟨h1, h2⟩ := ih (lookStep st a) (fun q hq => h q (List.mem_cons_of_mem _ hq))
    obtain ⟨h3, h4⟩ := lookStep_dis_false st a (h a (List.mem_cons_self _ _))
    exact ⟨h1.trans h3, h2.trans h4⟩

theorem mem_foldl_append {α β : Type} (g : α → List β) (r : β) (L : List α) :
    ∀ init : List β,
      (r ∈ L.foldl (fun acc x => acc ++ g x) init ↔ r ∈ init ∨ ∃ x ∈ L, r ∈ g x) := by
  induction L with
  | nil => intro init; simp
  | cons a L ih =>
    intro init
    rw [List.foldl_cons, ih (init ++ g a)]
    simp [List.mem_append, or_assoc]

/-- C7: a record is emitted for a line only if the line matches the
method-declaration shape and some line of its up-to-10-line lookback
window contains a recognized test-kind marker; a method-declaration line
with no marker in its window yields no record. -/
theorem c7_record_requires_marker (content plugin fpath : String) (r : TestMethod)
    (h : r ∈ scan_java_file content plugin fpath) :
    ∃ i, r.line_number = i + 1 ∧
      (∃ nm rest, reMatch methodRe ((pySplitLines content).getD i "").data = some (nm :: rest) ∧
        r.method_name = nm) ∧
      ∃ pl ∈ windowLines (pySplitLines content) i, hasKindMarker pl = true := by
  unfold scan_java_file at h
  split at h
  next cls rest1 heqcls =>
    rw [mem_foldl_append] at h
    rcases h with h | ⟨i, hi, hmem⟩
    · simp at h
    · unfold emitAt at hmem
      split at hmem
      next nm rest2 t heq1 heq2 =>
        simp only [List.mem_singleton] at hmem
        subst hmem
        refine ⟨i, rfl, ⟨nm, rest2, heq1, rfl⟩, ?_⟩
        rcases lookfold_annot _ look0 t heq2 with hex | hnone
        · exact hex
        · simp [look0] at hnone
      next => simp at hmem
  next => simp at h

/-- A file with one annotated test method, for the C7 witness. -/
def c7content : String :=
  "public class FooTest \x7b\n    @Test\n    public void testFoo() \x7b\n    \x7d\n\x7d"

/-- Witness for C7: the record of testFoo is in the scan of c7content,
and its line matches the method shape with a marker in its window. -/
theorem c7_record_requires_marker_witness :
    (⟨"m", "f", "FooTest", "testFoo", false, "", "Test", 3⟩ : TestMethod) ∈
      scan_java_file c7content "m" "f" ∧
    ∃ i, (⟨"m", "f", "FooTest", "testFoo", false, "", "Test", 3⟩ : TestMethod).line_number = i + 1 ∧
      (∃ nm rest, reMatch methodRe ((pySplitLines c7content).getD i "").data = some (nm :: rest) ∧
        (⟨"m", "f", "FooTest", "testFoo", false, "", "Test", 3⟩ : TestMethod).method_name = nm) ∧
      ∃ pl ∈ windowLines (pySplitLines c7content) i, hasKindMarker pl = true :=
  ⟨by decide, c7_record_requires_marker c7content "m" "f" _ (by decide)⟩

/-- C8: when the last window line containing the disablement marker
carries a parsable quoted reason, the emitted record is disabled with
exactly that reason; when the reason regex does not match, the reason is
the sentinel, never the empty string. -/
theorem c8_disabled_reason (lines : List String) (plugin fpath cls : String)
    (i : Nat) (r : TestMethod) (pl : String) (W1 W2 : List String)
    (he : emitAt lines plugin fpath cls i = [r])
    (hw : windowLines lines i = W1 ++ pl :: W2)
    (hd : containsSubS "@Disabled" pl = true)
    (hrest : ∀ q ∈ W2, containsSubS "@Disabled" q = false) :
    r.is_disabled = true ∧
    (∀ rs rest, reSearch disabledRe pl.data = some (rs :: rest) → r.disabled_reason = rs) ∧
    (reSearch disabledRe pl.data = none →
      r.disabled_reason = "No reason specified" ∧ r.disabled_reason ≠ "") := by
  have hfold : ((windowLines lines i).foldl lookStep look0).isDisabled = true ∧
      ((windowLines lines i).foldl lookStep look0).reason = reasonOf pl := by
    rw [hw, List.foldl_append, List.foldl_cons]
    obtain ⟨k1, k2⟩ := lookfold_keep W2 (lookStep (W1.foldl lookStep look0) pl) hrest
    obtain ⟨d1, d2⟩ := lookStep_dis_true (W1.foldl lookStep look0) pl hd
    exact ⟨k1.trans d1, k2.trans d2⟩
  unfold emitAt at he
  split at he
  next nm rest2 t heq1 heq2 =>
    simp only [List.cons.injEq, and_true] at he
    subst he
    refine ⟨hfold.1, ?_, ?_⟩
    · intro rs rest hs
      show ((windowLines lines i).foldl lookStep look0).reason = rs
      rw [hfold.2, reasonOf, hs]
    · intro hnone
      constructor
      · show ((windowLines lines i).foldl lookStep look0).reason = "No reason specified"
        rw [hfold.2, reasonOf, hnone]
      · show ((windowLines lines i).foldl lookStep look0).reason ≠ ""
        rw [hfold.2, reasonOf, hnone]
        decide
  next => simp at he

/-- Four lines of a test file whose window holds a reasoned disablement
marker, for the C8 witness. -/
def c8lines : List String :=
  ["public class BarTest \x7b", "    @Disabled(\"flaky on CI\")", "    @Test",
   "    public void testBar() \x7b"]

/-- The record emitted at line index 3 of c8lines. -/
def c8rec : TestMethod := ⟨"m", "f", "BarTest", "testBar", true, "flaky on CI", "Test", 4⟩

/-- Witness for C8: the record of testBar is disabled with the exact
quoted reason. -/
theorem c8_disabled_reason_witness :
    emitAt c8lines "m" "f" "BarTest" 3 = [c8rec] ∧
    c8rec.is_disabled = true ∧ c8rec.disabled_reason = "flaky on CI" :=
  ⟨by decide,
   (c8_disabled_reason c8lines "m" "f" "BarTest" 3 c8rec "@Disabled(\"flaky on CI\")"
      ["public class BarTest \x7b"] ["@Test"] (by decide) (by decide) (by decide)
      (by decide)).1,
   (c8_disabled_reason c8lines "m" "f" "BarTest" 3 c8rec "@Disabled(\"flaky on CI\")"
      ["public class BarTest \x7b"] ["@Test"] (by decide) (by decide) (by decide)
      (by decide)).2.1 "flaky on CI" [] (by decide)⟩
